import Mathlib

/-!
Verification of the SI-AGENT AI service (`src/backend/src/services/AIService.ts`)
against its natural-language specification.

The TypeScript class `AIService` is shallowly embedded here:
- the transport wrapper `makeRequest` becomes a pure function of the static
  configuration, the assembled messages, the (unused) per-call options and an
  abstract `FetchResult` describing how the underlying `fetch` call behaved;
- the JavaScript runtime pieces the code relies on (`JSON.parse`,
  `JSON.stringify`, the regex match, string truthiness and the `||` operator)
  are modelled by executable Lean functions following the ECMA semantics the
  code observes;
- the structured log records emitted through the Winston logger are collected
  into an explicit list so that properties about logged data can be stated.
-/

namespace SIAgent

/-! ### JavaScript value model

Runtime JSON values.  `JSON.parse` numbers are IEEE doubles in JavaScript; the
code under verification never computes with a parsed number, so a number is
modelled by its lexical form (`jnum raw`), which loses no information the
program observes. -/

mutual

inductive Jval where
  | jnull : Jval
  | jbool (b : Bool) : Jval
  | jnum (raw : String) : Jval
  | jstr (s : String) : Jval
  | jarr (xs : JvalList) : Jval
  | jobj (kvs : JvalMems) : Jval

inductive JvalList where
  | nil : JvalList
  | cons (hd : Jval) (tl : JvalList) : JvalList

inductive JvalMems where
  | nil : JvalMems
  | cons (k : String) (v : Jval) (tl : JvalMems) : JvalMems

end

/-- Build a JSON array value from a plain list. -/
def jlistOf : List Jval → JvalList
  | [] => .nil
  | x :: tl => .cons x (jlistOf tl)

def jarrOf (xs : List Jval) : Jval :=
  .jarr (jlistOf xs)

/-- Build a JSON object value from a plain association list (insertion
order preserved, as in JavaScript objects). -/
def jmemsOf : List (String × Jval) → JvalMems
  | [] => .nil
  | (k, v) :: tl => .cons k v (jmemsOf tl)

def jobjOf (kvs : List (String × Jval)) : Jval :=
  .jobj (jmemsOf kvs)

/-- Brace characters are referred to through named constants (string/char
literals in this file avoid raw brace characters; `\x7b`/`\x7d` escapes are
used inside string literals instead). -/
def openBraceChar : Char := Char.ofNat 123

def closeBraceChar : Char := Char.ofNat 125

/-! ### JavaScript truthiness and the `||` operator -/

/-- JavaScript `x || d` for an optional string `x` (`undefined` and `""` are
falsy; every other string is truthy). -/
def jsOrStr (x : Option String) (d : String) : String :=
  match x with
  | none => d
  | some s => if s = "" then d else s

/-- JavaScript `x || d` for an optional number (`undefined` and `0` are
falsy). -/
def jsOrNat (x : Option Nat) (d : Nat) : Nat :=
  match x with
  | none => d
  | some n => if n = 0 then d else n

/-- Truthiness of an optional string (`undefined` and `""` are falsy). -/
def jsTruthyStr (x : Option String) : Bool :=
  match x with
  | none => false
  | some s => s ≠ ""

/-- Lexical test for a JSON number literal denoting zero (`0`, `-0`, `0.00`,
`0e5`, ...): the only falsy numbers reachable from `JSON.parse` output. -/
def numLexZero (raw : String) : Bool :=
  let cs := if raw.data.head? = some '-' then raw.data.tail else raw.data
  let mantissa := cs.takeWhile (fun c => c ≠ 'e' ∧ c ≠ 'E')
  mantissa.all (fun c => c = '0' ∨ c = '.')

/-- JavaScript truthiness of a JSON value (`null`, `false`, `""` and numeric
zero are falsy; objects and arrays are always truthy). -/
def jvalTruthy (v : Jval) : Bool :=
  match v with
  | .jnull => false
  | .jbool b => b
  | .jnum raw => !(numLexZero raw)
  | .jstr s => s ≠ ""
  | .jarr _ => true
  | .jobj _ => true

/-- JavaScript `x || d` for an optional JSON value. -/
def jsOrJval (x : Option Jval) (d : Jval) : Jval :=
  match x with
  | none => d
  | some v => if jvalTruthy v then v else d

/-- Truthiness of an optional JSON value. -/
def jsTruthyJval (x : Option Jval) : Bool :=
  match x with
  | none => false
  | some v => jvalTruthy v

/-! ### `JSON.stringify` (compact form)

`JSON.stringify` is used by the code to serialise request bodies and caller
supplied schemas.  String escaping follows the ECMA `QuoteJSONString`
algorithm. -/

def hexDigitChar (n : Nat) : Char :=
  if n < 10 then Char.ofNat (48 + n) else Char.ofNat (87 + n)

def escJsonChar (c : Char) : String :=
  if c = '"' then "\\\""
  else if c = '\\' then "\\\\"
  else if c = Char.ofNat 8 then "\\b"
  else if c = Char.ofNat 12 then "\\f"
  else if c = '\n' then "\\n"
  else if c = '\r' then "\\r"
  else if c = '\t' then "\\t"
  else if c.toNat < 32 then
    "\\u00" ++ String.mk [hexDigitChar (c.toNat / 16), hexDigitChar (c.toNat % 16)]
  else String.singleton c

def escJsonString (s : String) : String :=
  "\"" ++ String.join (s.data.map escJsonChar) ++ "\""

/- `JSON.stringify(v)` (compact form), by mutual structural recursion. -/
mutual

def stringifyJval : Jval → String
  | .jnull => "null"
  | .jbool true => "true"
  | .jbool false => "false"
  | .jnum raw => raw
  | .jstr s => escJsonString s
  | .jarr xs => "[" ++ stringifyList xs ++ "]"
  | .jobj kvs =>
      String.singleton openBraceChar ++ stringifyMems kvs ++
        String.singleton closeBraceChar

def stringifyList : JvalList → String
  | .nil => ""
  | .cons x .nil => stringifyJval x
  | .cons x tl => stringifyJval x ++ "," ++ stringifyList tl

def stringifyMems : JvalMems → String
  | .nil => ""
  | .cons k v .nil => escJsonString k ++ ":" ++ stringifyJval v
  | .cons k v tl => escJsonString k ++ ":" ++ stringifyJval v ++ "," ++ stringifyMems tl

end

/-! ### `JSON.parse` (strict ECMA JSON grammar) -/

def isJsonWs (c : Char) : Bool :=
  c = ' ' || c = '\t' || c = '\n' || c = '\r'

def skipWs : List Char → List Char
  | [] => []
  | c :: cs => if isJsonWs c then skipWs cs else c :: cs

def lexDigits (cs : List Char) : Option (List Char × List Char) :=
  let ds := cs.takeWhile Char.isDigit
  if ds.isEmpty then none else some (ds, cs.drop ds.length)

/-- Lex a JSON number literal (maximal valid form); returns its raw text. -/
def lexNumber (cs0 : List Char) : Option (String × List Char) :=
  let sign : List Char × List Char :=
    match cs0 with
    | '-' :: tl => (['-'], tl)
    | _ => ([], cs0)
  match lexDigits sign.2 with
  | none => none
  | some (ip, r1) =>
    if ip.length > 1 ∧ ip.head? = some '0' then none
    else
      let frac : List Char × List Char :=
        match r1 with
        | '.' :: tl =>
          match lexDigits tl with
          | some (ds, r) => ('.' :: ds, r)
          | none => ([], r1)
        | _ => ([], r1)
      let expo : List Char × List Char :=
        match frac.2 with
        | e :: tl =>
          if e = 'e' ∨ e = 'E' then
            match tl with
            | s :: tl2 =>
              if s = '+' ∨ s = '-' then
                match lexDigits tl2 with
                | some (ds, r) => (e :: s :: ds, r)
                | none => ([], frac.2)
              else
                match lexDigits tl with
                | some (ds, r) => (e :: ds, r)
                | none => ([], frac.2)
            | [] => ([], frac.2)
          else ([], frac.2)
        | [] => ([], frac.2)
      some (String.mk (sign.1 ++ ip ++ frac.1 ++ expo.1), expo.2)

def hexVal (c : Char) : Option Nat :=
  if c.isDigit then some (c.toNat - 48)
  else if 'a' ≤ c ∧ c ≤ 'f' then some (c.toNat - 87)
  else if 'A' ≤ c ∧ c ≤ 'F' then some (c.toNat - 55)
  else none

def stripPrefixChars : List Char → List Char → Option (List Char)
  | [], cs => some cs
  | _ :: _, [] => none
  | p :: ps, c :: cs => if c = p then stripPrefixChars ps cs else none

/-- Lex a JSON string body (the opening quote already consumed).  `\uXXXX`
escapes denote UTF-16 code units; a lone surrogate (which Lean's `Char` cannot
carry) is mapped by `Char.ofNat` to a default scalar — the program under
verification never distinguishes such strings. -/
def lexString : Nat → List Char → List Char → Option (String × List Char)
  | 0, _, _ => none
  | _ + 1, _, [] => none
  | fuel + 1, acc, c :: cs =>
    if c = '"' then some (String.mk acc.reverse, cs)
    else if c = '\\' then
      match cs with
      | [] => none
      | e :: cs2 =>
        if e = '"' then lexString fuel ('"' :: acc) cs2
        else if e = '\\' then lexString fuel ('\\' :: acc) cs2
        else if e = '/' then lexString fuel ('/' :: acc) cs2
        else if e = 'b' then lexString fuel (Char.ofNat 8 :: acc) cs2
        else if e = 'f' then lexString fuel (Char.ofNat 12 :: acc) cs2
        else if e = 'n' then lexString fuel ('\n' :: acc) cs2
        else if e = 'r' then lexString fuel ('\r' :: acc) cs2
        else if e = 't' then lexString fuel ('\t' :: acc) cs2
        else if e = 'u' then
          match cs2 with
          | a :: b :: c2 :: d :: cs6 =>
            match hexVal a, hexVal b, hexVal c2, hexVal d with
            | some ha, some hb, some hc, some hd =>
                lexString fuel
                  (Char.ofNat (((ha * 16 + hb) * 16 + hc) * 16 + hd) :: acc) cs6
            | _, _, _, _ => none
          | _ => none
        else none
    else if c.toNat < 32 then none
    else lexString fuel (c :: acc) cs

mutual

def parseVal : Nat → List Char → Option (Jval × List Char)
  | 0, _ => none
  | fuel + 1, cs0 =>
    match skipWs cs0 with
    | [] => none
    | c :: cs =>
      if c = '"' then
        match lexString (cs.length + 1) [] cs with
        | some (s, rest) => some (.jstr s, rest)
        | none => none
      else if c = openBraceChar then parseObjAfterBrace fuel cs
      else if c = '[' then parseArrAfterBracket fuel cs
      else if c = 't' then
        match stripPrefixChars ['r', 'u', 'e'] cs with
        | some rest => some (.jbool true, rest)
        | none => none
      else if c = 'f' then
        match stripPrefixChars ['a', 'l', 's', 'e'] cs with
        | some rest => some (.jbool false, rest)
        | none => none
      else if c = 'n' then
        match stripPrefixChars ['u', 'l', 'l'] cs with
        | some rest => some (.jnull, rest)
        | none => none
      else
        match lexNumber (c :: cs) with
        | some (raw, rest) => some (.jnum raw, rest)
        | none => none

def parseObjAfterBrace : Nat → List Char → Option (Jval × List Char)
  | 0, _ => none
  | fuel + 1, cs =>
    match skipWs cs with
    | [] => none
    | c :: rest =>
      if c = closeBraceChar then some (.jobj .nil, rest)
      else parseMembers fuel (c :: rest) []

def parseMembers : Nat → List Char → List (String × Jval) →
    Option (Jval × List Char)
  | 0, _, _ => none
  | fuel + 1, cs, acc =>
    match skipWs cs with
    | '"' :: tl =>
      match lexString (tl.length + 1) [] tl with
      | some (k, r1) =>
        match skipWs r1 with
        | ':' :: r2 =>
          match parseVal fuel r2 with
          | some (v, r3) =>
            match skipWs r3 with
            | [] => none
            | c :: r4 =>
              if c = ',' then parseMembers fuel r4 (acc ++ [(k, v)])
              else if c = closeBraceChar then some (jobjOf (acc ++ [(k, v)]), r4)
              else none
          | none => none
        | _ => none
      | none => none
    | _ => none

def parseArrAfterBracket : Nat → List Char → Option (Jval × List Char)
  | 0, _ => none
  | fuel + 1, cs =>
    match skipWs cs with
    | ']' :: rest => some (.jarr .nil, rest)
    | cs2 => parseElems fuel cs2 []

def parseElems : Nat → List Char → List Jval → Option (Jval × List Char)
  | 0, _, _ => none
  | fuel + 1, cs, acc =>
    match parseVal fuel cs with
    | some (v, r1) =>
      match skipWs r1 with
      | ',' :: r2 => parseElems fuel r2 (acc ++ [v])
      | ']' :: r2 => some (jarrOf (acc ++ [v]), r2)
      | _ => none
    | none => none

end

/-- `JSON.parse(s)`: a single JSON value surrounded by optional whitespace;
anything else throws (modelled by `none`).  The fuel `3 * length + 8` bounds
the longest possible chain of recursive parser calls, every three of which
consume at least one input character. -/
def jsonParse (s : String) : Option Jval :=
  match parseVal (3 * s.length + 8) s.data with
  | some (v, rest) => if skipWs rest = [] then some v else none
  | none => none

/-! ### The regex span `content.match(/\x7b[\s\S]*\x7d/)`

The pattern matches (leftmost, greedy) a brace, any characters, a closing
brace.  The leftmost match starts at the first open brace that is followed by
some close brace, and greediness makes it end at the last close brace of the
text; when the first open brace of the text is followed by no close brace, no
later open brace is either, so the match exists exactly when the first open
brace precedes the last close brace. -/

def dropUntil (p : Char → Bool) : List Char → List Char
  | [] => []
  | c :: cs => if p c then c :: cs else dropUntil p cs

/-- `jsonMatch[0]`: the span from the first open brace to the last close brace,
when such a (length ≥ 2) span exists. -/
def extractJsonSpan (s : String) : Option String :=
  let tl := dropUntil (fun c => c = openBraceChar) s.data
  let rv := dropUntil (fun c => c = closeBraceChar) tl.reverse
  if rv = [] then none else some (String.mk rv.reverse)

/-- The response-interpreter core shared by `parseApiPrompt` and
`generateApiCode`: take the brace span, strictly parse it, and fall back on
any failure. -/
def interpretJson (content : String) (fallback : Jval) : Jval :=
  match extractJsonSpan content with
  | some span =>
    match jsonParse span with
    | some v => v
    | none => fallback
  | none => fallback

/-- JavaScript `s.substring(0, n)`. -/
def strTake (s : String) (n : Nat) : String :=
  String.mk (s.data.take n)

/-- Plain substring test (used to state what a serialised request or an error
message does or does not contain). -/
def listStartsWith : List Char → List Char → Bool
  | [], _ => true
  | _ :: _, [] => false
  | a :: as, b :: bs => a = b && listStartsWith as bs

def strContainsAux : List Char → List Char → Bool
  | needle, [] => listStartsWith needle []
  | needle, c :: cs => listStartsWith needle (c :: cs) || strContainsAux needle cs

def strContains (hay needle : String) : Bool :=
  strContainsAux needle.data hay.data

/-! ### Data model (AIService.ts interfaces and configuration) -/

/-- One chat message (`{ role, content }`). -/
structure Message where
  role : String
  content : String
deriving DecidableEq

/-- The static configuration read once by the `AIService` constructor
(`apiKey`, `model`, `baseUrl`). -/
structure Config where
  apiKey : String
  model : String
  baseUrl : String
deriving DecidableEq

/-- The per-call `options` argument of `makeRequest` (the callers pass
`maxTokens` and `temperature` through it). -/
structure RequestOptions where
  maxTokens : Option Nat
  temperature : Option ℚ
deriving DecidableEq

/-- The wire request body `{ model, messages }` built by `makeRequest`
(`const requestBody = { model: this.model, messages }`). -/
structure RequestBody where
  model : String
  messages : List Message
deriving DecidableEq

/-- The JSON rendering of the request body, as serialised by
`JSON.stringify(requestBody)` for the POST body. -/
def jsonOfRequestBody (b : RequestBody) : Jval :=
  jobjOf
    [("model", .jstr b.model),
     ("messages",
      jarrOf (b.messages.map (fun m =>
        jobjOf [("role", .jstr m.role), ("content", .jstr m.content)])))]

def stringifyRequestBody (b : RequestBody) : String :=
  stringifyJval (jsonOfRequestBody b)

/-- `usage` block of an upstream completion response. -/
structure Usage where
  prompt_tokens : Nat
  completion_tokens : Nat
  total_tokens : Nat
deriving DecidableEq

/-- `choices[i].message`; the code reads it through optional chaining, so both
levels may be absent at runtime despite the declared TypeScript interface. -/
structure ChoiceMessage where
  role : Option String
  content : Option String
deriving DecidableEq

structure Choice where
  message : Option ChoiceMessage
deriving DecidableEq

/-- The parsed upstream response as consumed by the code: only
`choices[0]?.message?.content` and `usage?.total_tokens` are read (the unused
scalar fields `id`/`object`/`created`/`model` are not modelled). -/
structure OpenRouterResponse where
  choices : List Choice
  usage : Option Usage
deriving DecidableEq

/-- `response.choices[0]?.message?.content`. -/
def contentOf (r : OpenRouterResponse) : Option String :=
  match r.choices.head? with
  | none => none
  | some c =>
    match c.message with
    | none => none
    | some m => m.content

/-! ### Errors, fetch outcomes and log records -/

/-- The `AppError` produced by `createError` in
`src/backend/src/middlewares/errorHandler.ts`. -/
structure AppError where
  message : String
  statusCode : Nat
  isOperational : Bool
deriving DecidableEq

/-- `createError(message, statusCode)` from the error-handler middleware. -/
def createError (message : String) (statusCode : Nat) : AppError :=
  { message := message, statusCode := statusCode, isOperational := true }

/-- A JavaScript error as observed by the `catch` block of `makeRequest`
(`name`, `code`, `message`, `stack`). -/
structure JsError where
  name : String
  code : Option String
  message : String
  stack : String
deriving DecidableEq

/-- The stack text of an internally constructed `Error` is generated by the
runtime; it is modelled as a message-determined placeholder (no claim inspects
its contents). -/
def errorStack (message : String) : String :=
  "Error: " ++ message

/-- What the `catch` block sees when the error it catches is the `AppError`
thrown by the non-ok branch inside the same `try` (a plain `Error`: name
`"Error"`, no `code` property). -/
def jsErrorOfAppError (e : AppError) : JsError :=
  { name := "Error", code := none, message := e.message,
    stack := errorStack e.message }

/-- How the single `fetch` + `response.json()` round trip behaved.  `resolved`
carries the HTTP response; `rejected` is a rejection of the `fetch` promise
itself (timeout abort, DNS failure, connection refusal, ...). -/
structure HttpResponse where
  ok : Bool
  status : Nat
  statusText : String
  bodyText : String
  /-- Outcome of `response.json()`: the parsed body, or the error that call
  would throw on a malformed body. -/
  jsonBody : Except JsError OpenRouterResponse

inductive FetchResult where
  | resolved (r : HttpResponse) : FetchResult
  | rejected (e : JsError) : FetchResult

inductive LogLevel where
  | info : LogLevel
  | warn : LogLevel
  | error : LogLevel
deriving DecidableEq

inductive LogValue where
  | str (s : String) : LogValue
  | num (n : Nat) : LogValue
  /-- A field whose JavaScript value is `undefined` (e.g. a missing
  `error.code`). -/
  | missing : LogValue
deriving DecidableEq

/-- One structured log record (level, message, metadata fields in order). -/
structure LogRecord where
  level : LogLevel
  message : String
  fields : List (String × LogValue)
deriving DecidableEq

/-! ### The transport client `makeRequest` -/

/-- The 30-second budget installed via
`setTimeout(() => controller.abort(), 30000)`. -/
def timeoutMs : Nat := 30000

/-- The body `makeRequest` builds for the POST: exactly
`{ model: this.model, messages }` — the `options` argument is not consulted. -/
def buildRequestBody (cfg : Config) (messages : List Message) : RequestBody :=
  { model := cfg.model, messages := messages }

/-- Everything `fetch` is invoked with. -/
structure SentRequest where
  url : String
  authorizationHeader : String
  contentTypeHeader : String
  httpRefererHeader : String
  xTitleHeader : String
  body : String
deriving DecidableEq

def sentRequestOf (cfg : Config) (messages : List Message) : SentRequest :=
  { url := cfg.baseUrl ++ "/chat/completions",
    authorizationHeader := "Bearer " ++ cfg.apiKey,
    contentTypeHeader := "application/json",
    httpRefererHeader := "http://localhost:3001",
    xTitleHeader := "SI-AGENT",
    body := stringifyRequestBody (buildRequestBody cfg messages) }

/-- `logger.info('Making OpenRouter API request', {...})`.  The source logs
`JSON.stringify(requestBody, null, 2)`; the pretty-printed rendering differs
from the compact one only in inserted whitespace, which no property here
observes, so the compact rendering stands in for it. -/
def preRequestLog (cfg : Config) (messages : List Message) : LogRecord :=
  { level := .info,
    message := "Making OpenRouter API request",
    fields :=
      [("url", .str (cfg.baseUrl ++ "/chat/completions")),
       ("model", .str cfg.model),
       ("baseUrl", .str cfg.baseUrl),
       ("messagesCount", .num messages.length),
       ("requestBody", .str (stringifyRequestBody (buildRequestBody cfg messages)))] }

/-- `logger.error('OpenRouter API error:', { status, error: errorData })`. -/
def upstreamErrorLog (r : HttpResponse) : LogRecord :=
  { level := .error,
    message := "OpenRouter API error:",
    fields := [("status", .num r.status), ("error", .str r.bodyText)] }

/-- `logger.info('OpenRouter API call successful', {...})`. -/
def successLog (cfg : Config) (data : OpenRouterResponse) : LogRecord :=
  { level := .info,
    message := "OpenRouter API call successful",
    fields :=
      [("model", .str cfg.model),
       ("tokens", .num (jsOrNat (data.usage.map Usage.total_tokens) 0))] }

/-- The error-message classification in the `catch` block of `makeRequest`. -/
def classifyCatch (e : JsError) : String :=
  if e.name = "AbortError" then
    "Request timeout - OpenRouter API took too long to respond"
  else if e.code = some "ENOTFOUND" ∨ e.code = some "ECONNREFUSED" then
    "Network error - Cannot reach OpenRouter API"
  else e.message

/-- `logger.error('AI service request failed:', {...})` — note the API key is
logged only as the presence flag `'SET'`/`'NOT_SET'`. -/
def catchLogRecord (cfg : Config) (e : JsError) (errorMessage : String) :
    LogRecord :=
  { level := .error,
    message := "AI service request failed:",
    fields :=
      [("message", .str errorMessage),
       ("originalError", .str e.message),
       ("errorName", .str e.name),
       ("errorCode", match e.code with | some c => .str c | none => .missing),
       ("stack", .str e.stack),
       ("apiKey", .str (if cfg.apiKey = "" then "NOT_SET" else "SET")),
       ("model", .str cfg.model),
       ("baseUrl", .str cfg.baseUrl)] }

/-- The value rethrown by the `catch` block. -/
def catchResult (e : JsError) : Except AppError OpenRouterResponse :=
  .error (createError ("Failed to communicate with AI service: " ++ classifyCatch e) 500)

/-- The inner `AppError` thrown on a non-success status
(`createError('AI service error: ' + statusText, status)`); it never escapes
`makeRequest` because the surrounding `catch` rewraps it. -/
def nonOkError (r : HttpResponse) : AppError :=
  createError ("AI service error: " ++ r.statusText) r.status

/-- `makeRequest(messages, options)`: result together with the structured log
records it emits, as a function of how the fetch round trip behaved.  The
`options` argument is received but — as in the source — never used. -/
def makeRequest (cfg : Config) (messages : List Message)
    (_opts : RequestOptions) (fr : FetchResult) :
    Except AppError OpenRouterResponse × List LogRecord :=
  match fr with
  | .rejected e =>
      (catchResult e,
       [preRequestLog cfg messages, catchLogRecord cfg e (classifyCatch e)])
  | .resolved r =>
    if r.ok then
      match r.jsonBody with
      | .ok data =>
          (.ok data, [preRequestLog cfg messages, successLog cfg data])
      | .error e =>
          (catchResult e,
           [preRequestLog cfg messages, catchLogRecord cfg e (classifyCatch e)])
    else
      (catchResult (jsErrorOfAppError (nonOkError r)),
       [preRequestLog cfg messages,
        upstreamErrorLog r,
        catchLogRecord cfg (jsErrorOfAppError (nonOkError r))
          (classifyCatch (jsErrorOfAppError (nonOkError r)))])

/-! ### Operation façade: `generateResponse` -/

/-- The `generateResponse` argument object (`AIPromptRequest`). -/
structure AIPromptRequest where
  prompt : String
  context : Option String
  maxTokens : Option Nat
  temperature : Option ℚ

def generateResponseSystemContent : String :=
  "You are a helpful AI assistant for the SI-AGENT platform. Provide clear, concise, and accurate responses."

/-- Message assembly for plain chat (`request.context ? ... : request.prompt`,
with JavaScript truthiness on the context string). -/
def generateResponseMessages (req : AIPromptRequest) : List Message :=
  [{ role := "system", content := generateResponseSystemContent },
   { role := "user",
     content :=
       if jsTruthyStr req.context then
         "Context: " ++ (req.context.getD "") ++ "\n\nPrompt: " ++ req.prompt
       else req.prompt }]

/-- `generateResponse`: façade-level `logger.error` calls (which only annotate
the rethrow) are not part of the modelled observation; the transport log
records are those of `makeRequest`. -/
def generateResponse (cfg : Config) (req : AIPromptRequest)
    (fr : FetchResult) : Except AppError String :=
  match (makeRequest cfg (generateResponseMessages req)
      { maxTokens := req.maxTokens, temperature := req.temperature } fr).1 with
  | .error e => .error e
  | .ok resp => .ok (jsOrStr (contentOf resp) "No response generated")

/-! ### Operation façade: `generateApiCode` -/

/-- The `generateApiCode` argument object (`APIGenerationRequest`); the
schemas are arbitrary JSON values (`any`). -/
structure APIGenerationRequest where
  description : String
  method : Option String
  inputSchema : Option Jval
  outputSchema : Option Jval

def generateApiCodeSystemPrompt : String :=
  "You are an expert API developer. Generate Express.js API code based on user descriptions.\n\nReturn a JSON response with the following structure:\n\x7b\n  \"endpoint\": \"/api/example\",\n  \"method\": \"GET|POST|PUT|DELETE\",\n  \"controllerCode\": \"// Express controller code\",\n  \"serviceCode\": \"// Business logic service code\", \n  \"schema\": \x7b\n    \"input\": \x7b /* JSON schema for input */ \x7d,\n    \"output\": \x7b /* JSON schema for output */ \x7d\n  \x7d\n\x7d\n\nMake the code production-ready with proper error handling, validation, and TypeScript types."

def generateApiCodeUserPrompt (req : APIGenerationRequest) : String :=
  "Generate an API for: " ++ req.description ++ "\n\n" ++
  (if jsTruthyStr req.method then
    "Preferred HTTP method: " ++ (req.method.getD "") else "") ++ "\n" ++
  (if jsTruthyJval req.inputSchema then
    "Input schema requirements: " ++ stringifyJval (req.inputSchema.getD .jnull)
   else "") ++ "\n" ++
  (if jsTruthyJval req.outputSchema then
    "Output schema requirements: " ++ stringifyJval (req.outputSchema.getD .jnull)
   else "") ++ "\n\nPlease generate complete, working code that follows best practices."

def generateApiCodeMessages (req : APIGenerationRequest) : List Message :=
  [{ role := "system", content := generateApiCodeSystemPrompt },
   { role := "user", content := generateApiCodeUserPrompt req }]

/-- The per-call options `generateApiCode` hands to `makeRequest`
(`maxTokens: 2000, temperature: 0.3`). -/
def generateApiCodeOpts : RequestOptions :=
  { maxTokens := some 2000, temperature := some (0.3 : ℚ) }

/-- The deterministic fallback structure of `generateApiCode`. -/
def generateApiCodeFallback (req : APIGenerationRequest) (content : String) :
    Jval :=
  jobjOf
    [("endpoint", .jstr "/api/generated"),
     ("method", .jstr (jsOrStr req.method "GET")),
     ("controllerCode",
      .jstr ("// Generated from: " ++ req.description ++ "\n" ++ content)),
     ("serviceCode", .jstr "// Service logic would go here"),
     ("schema",
      jobjOf
        [("input", jsOrJval req.inputSchema (jobjOf [])),
         ("output", jsOrJval req.outputSchema (jobjOf []))])]

/-- `generateApiCode`: the declared TypeScript result type notwithstanding, a
successfully parsed reply is returned as the raw parsed value, so the result
is modelled as a JSON value. -/
def generateApiCode (cfg : Config) (req : APIGenerationRequest)
    (fr : FetchResult) : Except AppError Jval :=
  match (makeRequest cfg (generateApiCodeMessages req)
      generateApiCodeOpts fr).1 with
  | .error e => .error e
  | .ok resp =>
    let content := jsOrStr (contentOf resp) ""
    .ok (interpretJson content (generateApiCodeFallback req content))

/-! ### Operation façade: `parseApiPrompt` -/

def parseApiPromptSystemPrompt : String :=
  "Analyze API requests and return structured information as JSON:\n\x7b\n  \"intent\": \"Brief description of what the API should do\",\n  \"suggestedEndpoint\": \"/api/suggested-path\",\n  \"suggestedMethod\": \"GET|POST|PUT|DELETE\",\n  \"parameters\": [\"param1\", \"param2\"],\n  \"complexity\": \"simple|medium|complex\"\n\x7d"

def parseApiPromptMessages (prompt : String) : List Message :=
  [{ role := "system", content := parseApiPromptSystemPrompt },
   { role := "user", content := "Analyze this API request: " ++ prompt }]

/-- The per-call options `parseApiPrompt` hands to `makeRequest`
(`maxTokens: 500, temperature: 0.2`). -/
def parseApiPromptOpts : RequestOptions :=
  { maxTokens := some 500, temperature := some (0.2 : ℚ) }

/-- The deterministic fallback analysis of `parseApiPrompt`. -/
def parseApiPromptFallback (prompt : String) : Jval :=
  jobjOf
    [("intent", .jstr (strTake prompt 100)),
     ("suggestedEndpoint", .jstr "/api/generated"),
     ("suggestedMethod", .jstr "GET"),
     ("parameters", jarrOf []),
     ("complexity", .jstr "medium")]

def parseApiPrompt (cfg : Config) (prompt : String) (fr : FetchResult) :
    Except AppError Jval :=
  match (makeRequest cfg (parseApiPromptMessages prompt)
      parseApiPromptOpts fr).1 with
  | .error e => .error e
  | .ok resp =>
    let content := jsOrStr (contentOf resp) ""
    .ok (interpretJson content (parseApiPromptFallback prompt))

/-! ### Operation façade: `testConnection` -/

def testPrompt : String :=
  "Hello! Please respond with \"AI service is working correctly\" to confirm the connection."

structure ConnectionTestResult where
  success : Bool
  model : String
  response : String
deriving DecidableEq

def testConnectionRequest : AIPromptRequest :=
  { prompt := testPrompt, context := none,
    maxTokens := some 50, temperature := some (0.1 : ℚ) }

/-- `testConnection`: downgrades any failure of `generateResponse` to a
structured `success=false` result (`error.message || 'Connection test
failed'`). -/
def testConnection (cfg : Config) (fr : FetchResult) : ConnectionTestResult :=
  match generateResponse cfg testConnectionRequest fr with
  | .ok s => { success := true, model := cfg.model, response := s }
  | .error e =>
      { success := false, model := cfg.model,
        response := jsOrStr (some e.message) "Connection test failed" }

/-! ### Result-shape checkers (full population of the declared fields) -/

def memsHasKey : JvalMems → String → Bool
  | .nil, _ => false
  | .cons k _ tl, key => k = key || memsHasKey tl key

/-- Whether a result value is an object carrying a given field. -/
def jobjHasKey (v : Jval) (k : String) : Bool :=
  match v with
  | .jobj kvs => memsHasKey kvs k
  | _ => false

/-- All five declared fields of `PromptAnalysis` are present. -/
def analysisFullyPopulated (v : Jval) : Bool :=
  jobjHasKey v "intent" && jobjHasKey v "suggestedEndpoint" &&
  jobjHasKey v "suggestedMethod" && jobjHasKey v "parameters" &&
  jobjHasKey v "complexity"

/-- All five declared fields of the `generateApiCode` result are present. -/
def artifactFullyPopulated (v : Jval) : Bool :=
  jobjHasKey v "endpoint" && jobjHasKey v "method" &&
  jobjHasKey v "controllerCode" && jobjHasKey v "serviceCode" &&
  jobjHasKey v "schema"

/-! ### Concrete fixtures (shared by witnesses and counterexamples) -/

def cfgEx : Config :=
  { apiKey := "sk-or-demo-key", model := "deepseek/deepseek-chat-v3.1:free",
    baseUrl := "https://openrouter.ai/api/v1" }

/-- Same configuration with a different (also present) API key. -/
def cfgEx2 : Config :=
  { cfgEx with apiKey := "sk-or-other-key" }

/-- A well-formed upstream response whose first choice carries the given
(optional) content. -/
def respWith (content : Option String) : OpenRouterResponse :=
  { choices := [{ message := some { role := some "assistant", content := content } }],
    usage := none }

/-- An upstream response with an empty `choices` array. -/
def emptyChoicesResp : OpenRouterResponse :=
  { choices := [],
    usage := some { prompt_tokens := 10, completion_tokens := 0, total_tokens := 10 } }

def httpOk (resp : OpenRouterResponse) : HttpResponse :=
  { ok := true, status := 200, statusText := "OK", bodyText := "",
    jsonBody := .ok resp }

def fetchOk (resp : OpenRouterResponse) : FetchResult :=
  .resolved (httpOk resp)

/-- A 404 round trip with a diagnostic body. -/
def notFoundResponse : HttpResponse :=
  { ok := false, status := 404, statusText := "Not Found",
    bodyText := "upstream-body-detail",
    jsonBody := .error { name := "SyntaxError", code := none,
                         message := "Unexpected token", stack := "" } }

/-- The rejection produced when the abort controller fires at the 30-second
bound. -/
def abortError : JsError :=
  { name := "AbortError", code := none,
    message := "The operation was aborted.",
    stack := "AbortError: The operation was aborted." }

def reqEx : AIPromptRequest :=
  { prompt := "What is 2+2?", context := none, maxTokens := none,
    temperature := none }

def greqEx : APIGenerationRequest :=
  { description := "create a books api", method := some "POST",
    inputSchema := none, outputSchema := none }

/-- The spec's two-independent-objects example text. -/
def twoObjectsText : String :=
  "\x7b\"a\":1\x7d text \x7b\"b\":2\x7d"

/-! ### Helper lemmas -/

/-- The error the non-ok branch throws is caught by the surrounding `catch` as
a plain `Error`, so the classification keeps its message. -/
theorem classifyCatch_jsErrorOfAppError (a : AppError) :
    classifyCatch (jsErrorOfAppError a) = a.message := rfl

/-- Every failure of `makeRequest` reaches the caller as status 500 with the
fixed message prefix. -/
theorem makeRequest_error_shape (cfg : Config) (msgs : List Message)
    (opts : RequestOptions) (fr : FetchResult) (e : AppError)
    (h : (makeRequest cfg msgs opts fr).1 = .error e) :
    e.statusCode = 500 ∧
      ∃ t, e.message = "Failed to communicate with AI service: " ++ t := by
  cases fr with
  | rejected je =>
    simp only [makeRequest, catchResult, createError] at h
    cases h
    exact ⟨rfl, ⟨classifyCatch je, rfl⟩⟩
  | resolved r =>
    by_cases hok : r.ok = true
    · cases hj : r.jsonBody with
      | ok data => simp [makeRequest, hok, hj] at h
      | error je =>
        simp only [makeRequest, hok, if_true, hj, catchResult, createError] at h
        cases h
        exact ⟨rfl, ⟨classifyCatch je, rfl⟩⟩
    · simp only [makeRequest, hok, if_false, Bool.not_eq_true] at h
      rw [if_neg Bool.false_ne_true] at h
      simp only [catchResult, createError] at h
      cases h
      exact ⟨rfl, ⟨classifyCatch (jsErrorOfAppError (nonOkError r)), rfl⟩⟩

/-- A `makeRequest` failure message is never empty. -/
theorem makeRequest_error_message_ne (cfg : Config) (msgs : List Message)
    (opts : RequestOptions) (fr : FetchResult) (e : AppError)
    (h : (makeRequest cfg msgs opts fr).1 = .error e) :
    e.message ≠ "" := by
  obtain ⟨-, t, ht⟩ := makeRequest_error_shape cfg msgs opts fr e h
  intro hcontra
  rw [ht] at hcontra
  have hl := congrArg String.length hcontra
  rw [String.length_append] at hl
  simp at hl
  exact absurd hl.1 (by decide)

/-- A successful round trip with a parseable body returns the parsed data. -/
theorem makeRequest_resolved_ok (cfg : Config) (msgs : List Message)
    (opts : RequestOptions) (r : HttpResponse) (resp : OpenRouterResponse)
    (hok : r.ok = true) (hj : r.jsonBody = .ok resp) :
    (makeRequest cfg msgs opts (.resolved r)).1 = .ok resp := by
  simp [makeRequest, hok, hj]

/-- A non-success status is rewrapped by the catch block: the caller sees
status 500 and a message built from the status text. -/
theorem makeRequest_resolved_notOk (cfg : Config) (msgs : List Message)
    (opts : RequestOptions) (r : HttpResponse) (hok : r.ok = false) :
    (makeRequest cfg msgs opts (.resolved r)).1 =
      .error (createError
        ("Failed to communicate with AI service: AI service error: " ++ r.statusText) 500) := by
  simp only [makeRequest, hok]
  rw [if_neg (by simp)]
  rfl

/-- A fetch rejection named `AbortError` surfaces as the fixed timeout
message, wrapped with status 500. -/
theorem makeRequest_rejected_abort (cfg : Config) (msgs : List Message)
    (opts : RequestOptions) (e : JsError) (h : e.name = "AbortError") :
    (makeRequest cfg msgs opts (.rejected e)).1 =
      .error (createError
        "Failed to communicate with AI service: Request timeout - OpenRouter API took too long to respond" 500) := by
  simp [makeRequest, catchResult, classifyCatch, h]

/-- `generateResponse` rethrows a transport failure unchanged. -/
theorem generateResponse_error (cfg : Config) (req : AIPromptRequest)
    (fr : FetchResult) (e : AppError)
    (h : (makeRequest cfg (generateResponseMessages req)
        { maxTokens := req.maxTokens, temperature := req.temperature } fr).1 =
      .error e) :
    generateResponse cfg req fr = .error e := by
  simp only [generateResponse, h]

/-- `generateResponse` on transport success returns the first choice content
under the `|| 'No response generated'` default. -/
theorem generateResponse_ok (cfg : Config) (req : AIPromptRequest)
    (fr : FetchResult) (resp : OpenRouterResponse)
    (h : (makeRequest cfg (generateResponseMessages req)
        { maxTokens := req.maxTokens, temperature := req.temperature } fr).1 =
      .ok resp) :
    generateResponse cfg req fr = .ok (jsOrStr (contentOf resp) "No response generated") := by
  simp only [generateResponse, h]

/-- `parseApiPrompt` rethrows a transport failure unchanged. -/
theorem parseApiPrompt_error (cfg : Config) (prompt : String)
    (fr : FetchResult) (e : AppError)
    (h : (makeRequest cfg (parseApiPromptMessages prompt)
        parseApiPromptOpts fr).1 = .error e) :
    parseApiPrompt cfg prompt fr = .error e := by
  simp only [parseApiPrompt, h]

/-- `parseApiPrompt` on transport success runs the interpreter on the first
choice content (defaulted to the empty string). -/
theorem parseApiPrompt_ok (cfg : Config) (prompt : String)
    (fr : FetchResult) (resp : OpenRouterResponse)
    (h : (makeRequest cfg (parseApiPromptMessages prompt)
        parseApiPromptOpts fr).1 = .ok resp) :
    parseApiPrompt cfg prompt fr =
      .ok (interpretJson (jsOrStr (contentOf resp) "")
        (parseApiPromptFallback prompt)) := by
  simp only [parseApiPrompt, h]

/-- `generateApiCode` rethrows a transport failure unchanged. -/
theorem generateApiCode_error (cfg : Config) (req : APIGenerationRequest)
    (fr : FetchResult) (e : AppError)
    (h : (makeRequest cfg (generateApiCodeMessages req)
        generateApiCodeOpts fr).1 = .error e) :
    generateApiCode cfg req fr = .error e := by
  simp only [generateApiCode, h]

/-- `generateApiCode` on transport success runs the interpreter on the first
choice content (defaulted to the empty string). -/
theorem generateApiCode_ok (cfg : Config) (req : APIGenerationRequest)
    (fr : FetchResult) (resp : OpenRouterResponse)
    (h : (makeRequest cfg (generateApiCodeMessages req)
        generateApiCodeOpts fr).1 = .ok resp) :
    generateApiCode cfg req fr =
      .ok (interpretJson (jsOrStr (contentOf resp) "")
        (generateApiCodeFallback req (jsOrStr (contentOf resp) ""))) := by
  simp only [generateApiCode, h]

/-- No brace span: the interpreter returns the fallback. -/
theorem interpretJson_noSpan (content : String) (fb : Jval)
    (h : extractJsonSpan content = none) : interpretJson content fb = fb := by
  simp [interpretJson, h]

/-- Span found but strict parse fails: the interpreter returns the
fallback. -/
theorem interpretJson_parseFail (content span : String) (fb : Jval)
    (h : extractJsonSpan content = some span) (h2 : jsonParse span = none) :
    interpretJson content fb = fb := by
  simp [interpretJson, h, h2]

/-- Span found and the strict parse succeeds: the parsed value replaces the
fallback wholesale. -/
theorem interpretJson_parsed (content span : String) (fb v : Jval)
    (h : extractJsonSpan content = some span) (h2 : jsonParse span = some v) :
    interpretJson content fb = v := by
  simp [interpretJson, h, h2]

/-- Whenever every extractable span fails to parse (including the no-span
case), the interpreter returns the fallback. -/
theorem interpretJson_fallback (content : String) (fb : Jval)
    (hfb : ∀ span, extractJsonSpan content = some span → jsonParse span = none) :
    interpretJson content fb = fb := by
  cases hspan : extractJsonSpan content with
  | none => exact interpretJson_noSpan content fb hspan
  | some span => exact interpretJson_parseFail content span fb hspan (hfb span hspan)

/-! ### Claim C3 -/

set_option maxRecDepth 100000 in
/-- C3 counterexample: the completion requests actually issued by
`parseApiPrompt` and `generateApiCode` on concrete inputs mention neither a
temperature nor a token maximum anywhere in the serialised body — the
operation-specific settings do not take effect on the outgoing request. -/
theorem c3_counterexample :
    strContains (sentRequestOf cfgEx (parseApiPromptMessages "p")).body
      "temperature" = false
    ∧ strContains (sentRequestOf cfgEx (parseApiPromptMessages "p")).body
      "max_tokens" = false
    ∧ strContains (sentRequestOf cfgEx (generateApiCodeMessages greqEx)).body
      "temperature" = false
    ∧ strContains (sentRequestOf cfgEx (generateApiCodeMessages greqEx)).body
      "max_tokens" = false := by
  exact ⟨rfl, rfl, rfl, rfl⟩

/-- C3 (amended): `parseApiPrompt` and `generateApiCode` do pass
`temperature` 0.2 / `maxTokens` 500 respectively 0.3 / 2000 to the transport
call, but `makeRequest` ignores its options argument entirely: its behaviour
is invariant in the options and the body it sends is exactly
`{ model, messages }`. -/
theorem c3_options_ignored (cfg : Config) (msgs : List Message)
    (o1 o2 : RequestOptions) (fr : FetchResult) :
    parseApiPromptOpts = { maxTokens := some 500, temperature := some (0.2 : ℚ) }
    ∧ generateApiCodeOpts = { maxTokens := some 2000, temperature := some (0.3 : ℚ) }
    ∧ makeRequest cfg msgs o1 fr = makeRequest cfg msgs o2 fr
    ∧ buildRequestBody cfg msgs = { model := cfg.model, messages := msgs }
    ∧ (sentRequestOf cfg msgs).body =
        stringifyRequestBody { model := cfg.model, messages := msgs } := by
  exact ⟨rfl, rfl, rfl, rfl, rfl⟩

/-! ### Claim C5 -/

/-- C5: a transport round trip ended by the abort controller (the rejection
named `AbortError`, produced when the 30000 ms budget — `timeoutMs` — fires)
is caught and surfaces to the caller of every operation as the typed timeout
failure, never as an unhandled rejection. -/
theorem c5_timeout (cfg : Config) (msgs : List Message)
    (opts : RequestOptions) (e : JsError) (req : AIPromptRequest)
    (prompt : String) (greq : APIGenerationRequest)
    (h : e.name = "AbortError") :
    timeoutMs = 30000
    ∧ (makeRequest cfg msgs opts (.rejected e)).1 =
      .error (createError
        "Failed to communicate with AI service: Request timeout - OpenRouter API took too long to respond" 500)
    ∧ generateResponse cfg req (.rejected e) =
      .error (createError
        "Failed to communicate with AI service: Request timeout - OpenRouter API took too long to respond" 500)
    ∧ parseApiPrompt cfg prompt (.rejected e) =
      .error (createError
        "Failed to communicate with AI service: Request timeout - OpenRouter API took too long to respond" 500)
    ∧ generateApiCode cfg greq (.rejected e) =
      .error (createError
        "Failed to communicate with AI service: Request timeout - OpenRouter API took too long to respond" 500) := by
  refine ⟨rfl, makeRequest_rejected_abort cfg msgs opts e h, ?_, ?_, ?_⟩
  · exact generateResponse_error cfg req (.rejected e) _
      (makeRequest_rejected_abort cfg _ _ e h)
  · exact parseApiPrompt_error cfg prompt (.rejected e) _
      (makeRequest_rejected_abort cfg _ _ e h)
  · exact generateApiCode_error cfg greq (.rejected e) _
      (makeRequest_rejected_abort cfg _ _ e h)

/-- C5 witness: the timeout theorem applied to a concrete abort rejection. -/
theorem c5_timeout_witness :
    timeoutMs = 30000
    ∧ (makeRequest cfgEx (parseApiPromptMessages "p") parseApiPromptOpts
        (.rejected abortError)).1 =
      .error (createError
        "Failed to communicate with AI service: Request timeout - OpenRouter API took too long to respond" 500)
    ∧ generateResponse cfgEx reqEx (.rejected abortError) =
      .error (createError
        "Failed to communicate with AI service: Request timeout - OpenRouter API took too long to respond" 500) := by
  obtain ⟨h1, h2, h3, -, -⟩ :=
    c5_timeout cfgEx (parseApiPromptMessages "p") parseApiPromptOpts
      abortError reqEx "p" greqEx rfl
  exact ⟨h1, h2, h3⟩

/-! ### Claim C1 -/

/-- C1 counterexample: a concrete 404 round trip whose body text is
`"upstream-body-detail"`.  The failure that reaches the caller carries status
500 (not the upstream 404) and a message built from the status text only —
the response body text appears nowhere in it. -/
theorem c1_counterexample :
    (makeRequest cfgEx (parseApiPromptMessages "p") parseApiPromptOpts
        (.resolved notFoundResponse)).1 =
      .error (createError
        "Failed to communicate with AI service: AI service error: Not Found" 500)
    ∧ (createError
        "Failed to communicate with AI service: AI service error: Not Found" 500).statusCode ≠ 404
    ∧ strContains
        "Failed to communicate with AI service: AI service error: Not Found"
        "upstream-body-detail" = false := by
  exact ⟨rfl, by decide, by decide⟩

/-- C1 (amended): on a non-success status the inner
`createError(..., response.status)` is caught by `makeRequest`'s own catch
block and rewrapped, so every caller of the three operations receives an
error with status 500 whose message embeds the upstream status text; the
upstream status code and the response body text are only emitted in the
`'OpenRouter API error:'` log record. -/
theorem c1_nonOk_rewrapped (cfg : Config) (msgs : List Message)
    (opts : RequestOptions) (r : HttpResponse) (req : AIPromptRequest)
    (prompt : String) (greq : APIGenerationRequest) (h : r.ok = false) :
    (makeRequest cfg msgs opts (.resolved r)).1 =
      .error (createError
        ("Failed to communicate with AI service: AI service error: " ++ r.statusText) 500)
    ∧ (makeRequest cfg msgs opts (.resolved r)).2.get? 1 = some (upstreamErrorLog r)
    ∧ upstreamErrorLog r =
        { level := .error, message := "OpenRouter API error:",
          fields := [("status", .num r.status), ("error", .str r.bodyText)] }
    ∧ generateResponse cfg req (.resolved r) =
      .error (createError
        ("Failed to communicate with AI service: AI service error: " ++ r.statusText) 500)
    ∧ parseApiPrompt cfg prompt (.resolved r) =
      .error (createError
        ("Failed to communicate with AI service: AI service error: " ++ r.statusText) 500)
    ∧ generateApiCode cfg greq (.resolved r) =
      .error (createError
        ("Failed to communicate with AI service: AI service error: " ++ r.statusText) 500) := by
  refine ⟨makeRequest_resolved_notOk cfg msgs opts r h, ?_, rfl, ?_, ?_, ?_⟩
  · simp only [makeRequest, h]
    rw [if_neg (by simp)]
    rfl
  · exact generateResponse_error cfg req (.resolved r) _
      (makeRequest_resolved_notOk cfg _ _ r h)
  · exact parseApiPrompt_error cfg prompt (.resolved r) _
      (makeRequest_resolved_notOk cfg _ _ r h)
  · exact generateApiCode_error cfg greq (.resolved r) _
      (makeRequest_resolved_notOk cfg _ _ r h)

/-- C1 witness: the amended theorem applied to the concrete 404 round
trip. -/
theorem c1_witness :
    (makeRequest cfgEx (parseApiPromptMessages "p") parseApiPromptOpts
        (.resolved notFoundResponse)).2.get? 1 = some (upstreamErrorLog notFoundResponse)
    ∧ generateResponse cfgEx reqEx (.resolved notFoundResponse) =
      .error (createError
        ("Failed to communicate with AI service: AI service error: " ++
          notFoundResponse.statusText) 500) := by
  obtain ⟨-, h2, -, h4, -, -⟩ :=
    c1_nonOk_rewrapped cfgEx (parseApiPromptMessages "p") parseApiPromptOpts
      notFoundResponse reqEx "p" greqEx rfl
  exact ⟨h2, h4⟩

/-! ### Claim C6 -/

/-- C6 counterexample: an upstream response whose first choice content is
present but equal to the empty string.  `generateResponse` does not return
that content; the `||` default replaces the empty string by the literal, so
the claim's dichotomy (content returned unless `choices` empty or content
absent) fails. -/
theorem c6_counterexample :
    generateResponse cfgEx reqEx (fetchOk (respWith (some ""))) =
      .ok "No response generated"
    ∧ contentOf (respWith (some "")) = some ""
    ∧ "No response generated" ≠ "" := by
  exact ⟨rfl, rfl, by decide⟩

/-- C6 (amended): on a successful round trip `generateResponse` returns the
first choice content when it is present and nonempty, and the literal
`"No response generated"` when the choices array is empty, the content is
absent, or the content is the empty string. -/
theorem c6_content_or_literal (cfg : Config) (req : AIPromptRequest)
    (r : HttpResponse) (resp : OpenRouterResponse)
    (hok : r.ok = true) (hj : r.jsonBody = .ok resp) :
    (∀ s, contentOf resp = some s → s ≠ "" →
      generateResponse cfg req (.resolved r) = .ok s)
    ∧ ((contentOf resp = none ∨ contentOf resp = some "") →
      generateResponse cfg req (.resolved r) = .ok "No response generated") := by
  have hgen := generateResponse_ok cfg req (.resolved r) resp
    (makeRequest_resolved_ok cfg (generateResponseMessages req)
      { maxTokens := req.maxTokens, temperature := req.temperature } r resp hok hj)
  constructor
  · intro s hs hne
    rw [hgen, hs]
    simp [jsOrStr, hne]
  · intro hc
    rw [hgen]
    rcases hc with hc | hc <;> rw [hc] <;> simp [jsOrStr]

/-- C6 witness: the amended theorem applied on both sides — a nonempty
content `"4"` is returned verbatim, and an empty `choices` array produces the
literal string. -/
theorem c6_witness :
    generateResponse cfgEx reqEx (fetchOk (respWith (some "4"))) = .ok "4"
    ∧ generateResponse cfgEx reqEx (fetchOk emptyChoicesResp) =
      .ok "No response generated" := by
  constructor
  · exact (c6_content_or_literal cfgEx reqEx (httpOk (respWith (some "4")))
      (respWith (some "4")) rfl rfl).1 "4" rfl (by decide)
  · exact (c6_content_or_literal cfgEx reqEx (httpOk emptyChoicesResp)
      emptyChoicesResp rfl rfl).2 (Or.inl rfl)

/-! ### Claim C10 -/

/-- C10: when the choices array is empty or the first choice content is
missing or empty, the interpreted content defaults to the empty string, which
contains no brace span, so both `parseApiPrompt` and `generateApiCode`
return their deterministic fallback values. -/
theorem c10_empty_content_fallback (cfg : Config) (prompt : String)
    (greq : APIGenerationRequest) (r : HttpResponse)
    (resp : OpenRouterResponse) (hok : r.ok = true)
    (hj : r.jsonBody = .ok resp)
    (hc : contentOf resp = none ∨ contentOf resp = some "") :
    jsOrStr (contentOf resp) "" = ""
    ∧ extractJsonSpan "" = none
    ∧ parseApiPrompt cfg prompt (.resolved r) = .ok (parseApiPromptFallback prompt)
    ∧ generateApiCode cfg greq (.resolved r) =
      .ok (generateApiCodeFallback greq "") := by
  have hcontent : jsOrStr (contentOf resp) "" = "" := by
    rcases hc with hc | hc <;> rw [hc] <;> simp [jsOrStr]
  refine ⟨hcontent, rfl, ?_, ?_⟩
  · have hp := parseApiPrompt_ok cfg prompt (.resolved r) resp
      (makeRequest_resolved_ok cfg (parseApiPromptMessages prompt)
        parseApiPromptOpts r resp hok hj)
    rw [hp, hcontent, interpretJson_noSpan "" (parseApiPromptFallback prompt) rfl]
  · have hg := generateApiCode_ok cfg greq (.resolved r) resp
      (makeRequest_resolved_ok cfg (generateApiCodeMessages greq)
        generateApiCodeOpts r resp hok hj)
    rw [hg, hcontent, interpretJson_noSpan "" (generateApiCodeFallback greq "") rfl]

/-- C10 witness: concrete empty-choices and missing-content responses hit the
fallback path of both operations. -/
theorem c10_witness :
    parseApiPrompt cfgEx "list all books" (fetchOk emptyChoicesResp) =
      .ok (parseApiPromptFallback "list all books")
    ∧ generateApiCode cfgEx greqEx (fetchOk (respWith (some ""))) =
      .ok (generateApiCodeFallback greqEx "") := by
  constructor
  · exact (c10_empty_content_fallback cfgEx "list all books" greqEx
      (httpOk emptyChoicesResp) emptyChoicesResp rfl rfl (Or.inl rfl)).2.2.1
  · exact (c10_empty_content_fallback cfgEx "list all books" greqEx
      (httpOk (respWith (some ""))) (respWith (some "")) rfl rfl
      (Or.inr rfl)).2.2.2

/-! ### Claim C2 -/

set_option maxRecDepth 100000 in
/-- C2 counterexample: upstream reply texts that parse as JSON objects
lacking most of the declared fields.  Both operations return the parsed
object as-is — a partially populated result. -/
theorem c2_counterexample :
    parseApiPrompt cfgEx "list all books"
        (fetchOk (respWith (some "\x7b\"intent\":\"x\"\x7d"))) =
      .ok (jobjOf [("intent", .jstr "x")])
    ∧ analysisFullyPopulated (jobjOf [("intent", .jstr "x")]) = false
    ∧ generateApiCode cfgEx greqEx
        (fetchOk (respWith (some "\x7b\"endpoint\":\"/e\"\x7d"))) =
      .ok (jobjOf [("endpoint", .jstr "/e")])
    ∧ artifactFullyPopulated (jobjOf [("endpoint", .jstr "/e")]) = false := by
  exact ⟨rfl, rfl, rfl, rfl⟩

/-- C2 (amended): the results of `parseApiPrompt` and `generateApiCode` are
fully populated whenever the fallback path is taken (no brace span, or the
span fails the strict parse); but when the reply text parses as a JSON value,
that value is returned as-is and may lack declared fields. -/
theorem c2_population (cfg : Config) (prompt : String)
    (greq : APIGenerationRequest) (r : HttpResponse)
    (resp : OpenRouterResponse) (hok : r.ok = true)
    (hj : r.jsonBody = .ok resp) :
    ((∀ span, extractJsonSpan (jsOrStr (contentOf resp) "") = some span →
        jsonParse span = none) →
      parseApiPrompt cfg prompt (.resolved r) = .ok (parseApiPromptFallback prompt)
      ∧ analysisFullyPopulated (parseApiPromptFallback prompt) = true
      ∧ generateApiCode cfg greq (.resolved r) =
          .ok (generateApiCodeFallback greq (jsOrStr (contentOf resp) ""))
      ∧ artifactFullyPopulated
          (generateApiCodeFallback greq (jsOrStr (contentOf resp) "")) = true)
    ∧ (∀ span v, extractJsonSpan (jsOrStr (contentOf resp) "") = some span →
        jsonParse span = some v →
        parseApiPrompt cfg prompt (.resolved r) = .ok v
        ∧ generateApiCode cfg greq (.resolved r) = .ok v) := by
  have hp := parseApiPrompt_ok cfg prompt (.resolved r) resp
    (makeRequest_resolved_ok cfg (parseApiPromptMessages prompt)
      parseApiPromptOpts r resp hok hj)
  have hg := generateApiCode_ok cfg greq (.resolved r) resp
    (makeRequest_resolved_ok cfg (generateApiCodeMessages greq)
      generateApiCodeOpts r resp hok hj)
  constructor
  · intro hfb
    refine ⟨?_, rfl, ?_, rfl⟩
    · rw [hp, interpretJson_fallback _ _ hfb]
    · rw [hg, interpretJson_fallback _ _ hfb]
  · intro span v hspan hparse
    constructor
    · rw [hp, interpretJson_parsed _ span _ v hspan hparse]
    · rw [hg, interpretJson_parsed _ span _ v hspan hparse]

/-- C2 witness: the amended theorem applied to a reply with no JSON object —
both operations return their (fully populated) fallback. -/
theorem c2_witness :
    parseApiPrompt cfgEx "list all books"
        (fetchOk (respWith (some "no json here"))) =
      .ok (parseApiPromptFallback "list all books")
    ∧ analysisFullyPopulated (parseApiPromptFallback "list all books") = true := by
  have h := (c2_population cfgEx "list all books" greqEx
      (httpOk (respWith (some "no json here"))) (respWith (some "no json here"))
      rfl rfl).1 ?_
  · exact ⟨h.1, h.2.1⟩
  · intro span hs
    rw [show extractJsonSpan
      (jsOrStr (contentOf (respWith (some "no json here"))) "") = none from rfl] at hs
    cases hs

/-! ### Claim C7 -/

/-- C7: whenever interpretation falls back, `parseApiPrompt` returns exactly
the literal analysis object (intent = first 100 characters of the prompt,
endpoint `/api/generated`, method `GET`, empty parameters, medium
complexity), and `generateApiCode` returns exactly the literal artifact
(endpoint `/api/generated`, the caller's method or `GET`, the
`// Generated from:` banner followed by the raw reply text, the fixed service
stub, and the caller's schemas or `{}`). -/
theorem c7_fallback_shape (cfg : Config) (prompt : String)
    (greq : APIGenerationRequest) (r : HttpResponse)
    (resp : OpenRouterResponse) (hok : r.ok = true)
    (hj : r.jsonBody = .ok resp)
    (hfb : ∀ span, extractJsonSpan (jsOrStr (contentOf resp) "") = some span →
      jsonParse span = none) :
    parseApiPrompt cfg prompt (.resolved r) =
      .ok (jobjOf
        [("intent", .jstr (strTake prompt 100)),
         ("suggestedEndpoint", .jstr "/api/generated"),
         ("suggestedMethod", .jstr "GET"),
         ("parameters", jarrOf []),
         ("complexity", .jstr "medium")])
    ∧ generateApiCode cfg greq (.resolved r) =
      .ok (jobjOf
        [("endpoint", .jstr "/api/generated"),
         ("method", .jstr (jsOrStr greq.method "GET")),
         ("controllerCode",
          .jstr ("// Generated from: " ++ greq.description ++ "\n" ++
            jsOrStr (contentOf resp) "")),
         ("serviceCode", .jstr "// Service logic would go here"),
         ("schema",
          jobjOf
            [("input", jsOrJval greq.inputSchema (jobjOf [])),
             ("output", jsOrJval greq.outputSchema (jobjOf []))])]) := by
  constructor
  · rw [parseApiPrompt_ok cfg prompt (.resolved r) resp
      (makeRequest_resolved_ok cfg (parseApiPromptMessages prompt)
        parseApiPromptOpts r resp hok hj),
      interpretJson_fallback _ _ hfb]
    rfl
  · rw [generateApiCode_ok cfg greq (.resolved r) resp
      (makeRequest_resolved_ok cfg (generateApiCodeMessages greq)
        generateApiCodeOpts r resp hok hj),
      interpretJson_fallback _ _ hfb]
    rfl

/-- C7 witness: a reply with no JSON object yields exactly the two literal
fallback structures. -/
theorem c7_witness :
    parseApiPrompt cfgEx "list all books"
        (fetchOk (respWith (some "raw text"))) =
      .ok (jobjOf
        [("intent", .jstr (strTake "list all books" 100)),
         ("suggestedEndpoint", .jstr "/api/generated"),
         ("suggestedMethod", .jstr "GET"),
         ("parameters", jarrOf []),
         ("complexity", .jstr "medium")])
    ∧ generateApiCode cfgEx greqEx (fetchOk (respWith (some "raw text"))) =
      .ok (jobjOf
        [("endpoint", .jstr "/api/generated"),
         ("method", .jstr (jsOrStr greqEx.method "GET")),
         ("controllerCode",
          .jstr ("// Generated from: " ++ greqEx.description ++ "\n" ++
            jsOrStr (contentOf (respWith (some "raw text"))) "")),
         ("serviceCode", .jstr "// Service logic would go here"),
         ("schema",
          jobjOf
            [("input", jsOrJval greqEx.inputSchema (jobjOf [])),
             ("output", jsOrJval greqEx.outputSchema (jobjOf []))])]) := by
  exact c7_fallback_shape cfgEx "list all books" greqEx
    (httpOk (respWith (some "raw text"))) (respWith (some "raw text")) rfl rfl
    (by intro span hs
        rw [show extractJsonSpan
          (jsOrStr (contentOf (respWith (some "raw text"))) "") = none from rfl] at hs
        cases hs)

/-! ### Claim C8 -/

/-- C8: `testConnection` never propagates a failure — it returns a structured
result, `success=true` with the generated text on success and `success=false`
with the error's message on any failure (the message of a transport failure
is never empty, so the `|| 'Connection test failed'` default never replaces
it); whereas the three generation operations rethrow a transport failure
unchanged to their caller. -/
theorem c8_failure_semantics (cfg : Config) (fr : FetchResult)
    (req : AIPromptRequest) (prompt : String) (greq : APIGenerationRequest) :
    (∀ s, generateResponse cfg testConnectionRequest fr = .ok s →
      testConnection cfg fr = { success := true, model := cfg.model, response := s })
    ∧ (∀ e, generateResponse cfg testConnectionRequest fr = .error e →
      testConnection cfg fr = { success := false, model := cfg.model, response := e.message })
    ∧ (∀ e, (makeRequest cfg (generateResponseMessages req)
        { maxTokens := req.maxTokens, temperature := req.temperature } fr).1 = .error e →
      generateResponse cfg req fr = .error e)
    ∧ (∀ e, (makeRequest cfg (parseApiPromptMessages prompt)
        parseApiPromptOpts fr).1 = .error e →
      parseApiPrompt cfg prompt fr = .error e)
    ∧ (∀ e, (makeRequest cfg (generateApiCodeMessages greq)
        generateApiCodeOpts fr).1 = .error e →
      generateApiCode cfg greq fr = .error e) := by
  refine ⟨?_, ?_, ?_, ?_, ?_⟩
  · intro s h
    simp [testConnection, h]
  · intro e h
    have hmk : (makeRequest cfg (generateResponseMessages testConnectionRequest)
        { maxTokens := testConnectionRequest.maxTokens,
          temperature := testConnectionRequest.temperature } fr).1 = .error e := by
      cases hm : (makeRequest cfg (generateResponseMessages testConnectionRequest)
          { maxTokens := testConnectionRequest.maxTokens,
            temperature := testConnectionRequest.temperature } fr).1 with
      | ok resp =>
        rw [generateResponse_ok cfg testConnectionRequest fr resp hm] at h
        cases h
      | error e2 =>
        rw [generateResponse_error cfg testConnectionRequest fr e2 hm] at h
        injection h with h2
        rw [h2]
    have hne := makeRequest_error_message_ne cfg
      (generateResponseMessages testConnectionRequest)
      { maxTokens := testConnectionRequest.maxTokens,
        temperature := testConnectionRequest.temperature } fr e hmk
    simp [testConnection, h, jsOrStr, hne]
  · exact fun e h => generateResponse_error cfg req fr e h
  · exact fun e h => parseApiPrompt_error cfg prompt fr e h
  · exact fun e h => generateApiCode_error cfg greq fr e h

/-- C8 witness: the theorem applied to a concrete successful round trip and a
concrete 404 round trip. -/
theorem c8_witness :
    testConnection cfgEx (fetchOk (respWith (some "AI service is working correctly"))) =
      { success := true, model := cfgEx.model,
        response := "AI service is working correctly" }
    ∧ testConnection cfgEx (.resolved notFoundResponse) =
      { success := false, model := cfgEx.model,
        response := "Failed to communicate with AI service: AI service error: Not Found" } := by
  constructor
  · exact (c8_failure_semantics cfgEx
      (fetchOk (respWith (some "AI service is working correctly")))
      reqEx "p" greqEx).1 "AI service is working correctly" rfl
  · exact (c8_failure_semantics cfgEx (.resolved notFoundResponse)
      reqEx "p" greqEx).2.1
      (createError "Failed to communicate with AI service: AI service error: Not Found" 500)
      rfl

/-! ### Claim C9 -/

/-- C9 (noninterference): the structured log records emitted by the transport
client are identical for any two configurations that agree on model and base
URL and on whether an API key is present at all — the raw key value never
influences a log record; only the presence flag does. -/
theorem c9_no_key_in_logs (cfg1 cfg2 : Config) (msgs : List Message)
    (opts : RequestOptions) (fr : FetchResult)
    (hm : cfg1.model = cfg2.model) (hb : cfg1.baseUrl = cfg2.baseUrl)
    (hk : (cfg1.apiKey = "") ↔ (cfg2.apiKey = "")) :
    (makeRequest cfg1 msgs opts fr).2 = (makeRequest cfg2 msgs opts fr).2 := by
  have hflag : (if cfg1.apiKey = "" then "NOT_SET" else "SET") =
      (if cfg2.apiKey = "" then "NOT_SET" else "SET") := by
    by_cases h1 : cfg1.apiKey = ""
    · rw [if_pos h1, if_pos (hk.mp h1)]
    · rw [if_neg h1, if_neg (fun h2 => h1 (hk.mpr h2))]
  have hpre : preRequestLog cfg1 msgs = preRequestLog cfg2 msgs := by
    simp [preRequestLog, buildRequestBody, hm, hb]
  have hcatch : ∀ e s, catchLogRecord cfg1 e s = catchLogRecord cfg2 e s := by
    intro e s
    simp [catchLogRecord, hm, hb, hflag]
  cases fr with
  | rejected e => simp [makeRequest, hpre, hcatch]
  | resolved r =>
    by_cases hok : r.ok = true
    · cases hj : r.jsonBody with
      | ok data => simp [makeRequest, hok, hj, hpre, successLog, hm]
      | error e => simp [makeRequest, hok, hj, hpre, hcatch]
    · have hok2 : r.ok = false := by simpa using hok
      simp [makeRequest, hok2, hpre, hcatch]

/-- C9 witness: two concrete configurations with different present keys emit
identical transport log records for the same round trip. -/
theorem c9_witness :
    (makeRequest cfgEx (parseApiPromptMessages "p") parseApiPromptOpts
        (.resolved notFoundResponse)).2 =
    (makeRequest cfgEx2 (parseApiPromptMessages "p") parseApiPromptOpts
        (.resolved notFoundResponse)).2 :=
  c9_no_key_in_logs cfgEx cfgEx2 (parseApiPromptMessages "p")
    parseApiPromptOpts (.resolved notFoundResponse) rfl rfl (by decide)

/-! ### Claim C4 -/

/-- `dropUntil` removes a prefix on which the predicate is everywhere
false. -/
theorem dropUntil_split (p : Char → Bool) (cs : List Char) :
    ∃ pre, cs = pre ++ dropUntil p cs ∧ ∀ c ∈ pre, p c = false := by
  induction cs with
  | nil => exact ⟨[], rfl, by simp⟩
  | cons c cs ih =>
    by_cases h : p c = true
    · refine ⟨[], ?_, by simp⟩
      simp [dropUntil, h]
    · obtain ⟨pre, heq, hall⟩ := ih
      have hf : p c = false := by simpa using h
      refine ⟨c :: pre, ?_, ?_⟩
      · simpa [dropUntil, hf] using heq
      · intro x hx
        rcases List.mem_cons.mp hx with rfl | hx
        · exact hf
        · exact hall x hx

/-- The first retained character satisfies the predicate. -/
theorem dropUntil_head (p : Char → Bool) (cs : List Char) (c : Char)
    (tl : List Char) (h : dropUntil p cs = c :: tl) : p c = true := by
  induction cs with
  | nil => cases h
  | cons a as ih =>
    by_cases ha : p a = true
    · rw [dropUntil, if_pos ha] at h
      cases h
      exact ha
    · rw [dropUntil, if_neg ha] at h
      exact ih h

/-- Characterisation of the selected span: the text splits as
`pre ++ span ++ post` where `pre` holds no open brace (the span starts at the
FIRST open brace), `post` holds no close brace (the span ends at the LAST
close brace), and the span itself starts with an open and ends with a close
brace. -/
theorem extractJsonSpan_spec (s span : String)
    (h : extractJsonSpan s = some span) :
    ∃ pre post : List Char,
      s.data = pre ++ span.data ++ post
      ∧ (∀ c ∈ pre, ¬ c = openBraceChar)
      ∧ (∀ c ∈ post, ¬ c = closeBraceChar)
      ∧ span.data.head? = some openBraceChar
      ∧ span.data.getLast? = some closeBraceChar := by
  unfold extractJsonSpan at h
  simp only [] at h
  set tl := dropUntil (fun c => c = openBraceChar) s.data with htl
  set rv := dropUntil (fun c => c = closeBraceChar) tl.reverse with hrv
  by_cases hne : rv = []
  · rw [if_pos hne] at h
    cases h
  · rw [if_neg hne] at h
    injection h with hspan
    have hsd : span.data = rv.reverse := by rw [← hspan]
    obtain ⟨pre1, heq1, hall1⟩ := dropUntil_split (fun c => c = openBraceChar) s.data
    obtain ⟨pre2, heq2, hall2⟩ := dropUntil_split (fun c => c = closeBraceChar) tl.reverse
    rw [← htl] at heq1
    rw [← hrv] at heq2
    have htl2 : tl = rv.reverse ++ pre2.reverse := by
      have hc := congrArg List.reverse heq2
      rwa [List.reverse_reverse, List.reverse_append] at hc
    refine ⟨pre1, pre2.reverse, ?_, ?_, ?_, ?_, ?_⟩
    · rw [heq1, htl2, hsd, List.append_assoc]
    · intro c hc
      simpa using hall1 c hc
    · intro c hc
      simpa using hall2 c (List.mem_reverse.mp hc)
    · obtain ⟨c, cs2, hcons⟩ := List.exists_cons_of_ne_nil
        (fun hrev => hne (by simpa using congrArg List.reverse hrev) :
          rv.reverse ≠ [])
      have hhead : dropUntil (fun c => c = openBraceChar) s.data = c :: (cs2 ++ pre2.reverse) := by
        rw [← htl, htl2, hcons]
        rfl
      have := dropUntil_head (fun c => c = openBraceChar) s.data c _ hhead
      rw [hsd, hcons]
      simpa using this
    · obtain ⟨d, rv2, hdcons⟩ := List.exists_cons_of_ne_nil hne
      have := dropUntil_head (fun c => c = closeBraceChar) tl.reverse d rv2
        (by rw [← hrv]; exact hdcons)
      rw [hsd, List.getLast?_reverse, hdcons]
      simpa using this

set_option maxRecDepth 100000 in
/-- C4: the interpreter selects the greedy first-open-brace-to-last-close-
brace span, strictly parses it, and on any parse failure — or when no span
exists — returns the fallback unmodified; in particular the spec's
two-independent-objects text selects the whole span, which is not valid JSON,
and falls back rather than throwing. -/
theorem c4_interpreter (content : String) (fb : Jval) :
    (extractJsonSpan content = none → interpretJson content fb = fb)
    ∧ (∀ span, extractJsonSpan content = some span → jsonParse span = none →
        interpretJson content fb = fb)
    ∧ (∀ span, extractJsonSpan content = some span →
        ∃ pre post : List Char,
          content.data = pre ++ span.data ++ post
          ∧ (∀ c ∈ pre, ¬ c = openBraceChar)
          ∧ (∀ c ∈ post, ¬ c = closeBraceChar)
          ∧ span.data.head? = some openBraceChar
          ∧ span.data.getLast? = some closeBraceChar)
    ∧ extractJsonSpan twoObjectsText = some twoObjectsText
    ∧ jsonParse twoObjectsText = none
    ∧ interpretJson twoObjectsText fb = fb
    ∧ extractJsonSpan "noise \x7b\"a\":1\x7d more noise" = some "\x7b\"a\":1\x7d"
    ∧ interpretJson "noise \x7b\"a\":1\x7d more noise" fb =
        jobjOf [("a", .jnum "1")] := by
  refine ⟨interpretJson_noSpan content fb,
    fun span h1 h2 => interpretJson_parseFail content span fb h1 h2,
    fun span h1 => extractJsonSpan_spec content span h1,
    rfl, rfl, ?_, rfl, rfl⟩
  exact interpretJson_parseFail twoObjectsText twoObjectsText fb rfl rfl

set_option maxRecDepth 100000 in
/-- C4 witness: the interpreter theorem applied to the concrete two-objects
text. -/
theorem c4_witness :
    extractJsonSpan twoObjectsText = some twoObjectsText
    ∧ interpretJson twoObjectsText (parseApiPromptFallback "x") =
        parseApiPromptFallback "x" := by
  obtain ⟨-, -, -, h4, -, h6, -, -⟩ :=
    c4_interpreter twoObjectsText (parseApiPromptFallback "x")
  exact ⟨h4, h6⟩

end SIAgent
